import Mathlib

/-!
Verification of the heartsnaps order/pricing/promo/lifecycle server.

The definitions below are a shallow embedding of the JavaScript server
(src/server.js) and the SQL helper functions (src/supabase-schema.sql).
Pure computations become Lean functions; database-backed lookups become
explicit parameters (a list of rows, or a lookup function); timestamps
are modelled as integers; JavaScript truthiness on optional numeric and
string fields is modelled explicitly.
-/

/- ===================== JavaScript truthiness helpers ===================== -/

/-- Truthiness of an optional JS number: undefined and 0 are falsy. -/
def jsTruthyNat : Option Nat → Bool
  | none => false
  | some n => n != 0

/-- Truthiness of an optional JS string: undefined and the empty string are falsy. -/
def jsTruthyStr : Option String → Bool
  | none => false
  | some s => s != ""

/-- Character-wise upper-casing, modelling the JS String.prototype.toUpperCase
used on promo codes (codes are ASCII). -/
def strUpper (s : String) : String := ⟨s.data.map Char.toUpper⟩

/-- Character-wise lower-casing, modelling the JS String.prototype.toLowerCase
used on emails. -/
def strLower (s : String) : String := ⟨s.data.map Char.toLower⟩

/- ===================== Pricing engine (server.js lines 28-49) ===================== -/

/-- One quantity tier of the PRICING table. -/
structure Tier where
  min : Nat
  max : Nat
  pricePerUnit : Nat
deriving DecidableEq, Repr

/-- The three tiers configured for one product type. -/
structure TierSet where
  tier1 : Tier
  tier2 : Tier
  tier3 : Tier
deriving DecidableEq, Repr

/-- PRICING.personal from server.js. -/
def PRICING_personal : TierSet :=
  { tier1 := { min := 1, max := 5, pricePerUnit := 1000 }
    tier2 := { min := 6, max := 11, pricePerUnit := 800 }
    tier3 := { min := 12, max := 999, pricePerUnit := 700 } }

/-- PRICING.business from server.js (identical values to personal). -/
def PRICING_business : TierSet :=
  { tier1 := { min := 1, max := 5, pricePerUnit := 1000 }
    tier2 := { min := 6, max := 11, pricePerUnit := 800 }
    tier3 := { min := 12, max := 999, pricePerUnit := 700 } }

/-- PRICING.shipping from server.js: flat 800 cents. -/
def PRICING_shipping : Nat := 800

/-- The tier lookup PRICING[productType] || PRICING.personal. The PRICING
object has exactly the keys personal and business; any other key yields
undefined and falls back to personal. -/
def pricingFor (productType : String) : TierSet :=
  if productType == "personal" then PRICING_personal
  else if productType == "business" then PRICING_business
  else PRICING_personal

/-- calculatePrice(quantity, productType) from server.js lines 44-49. -/
def calculatePrice (quantity : Nat) (productType : String) : Nat :=
  let tiers := pricingFor productType
  if quantity ≥ tiers.tier3.min then quantity * tiers.tier3.pricePerUnit
  else if quantity ≥ tiers.tier2.min then quantity * tiers.tier2.pricePerUnit
  else quantity * tiers.tier1.pricePerUnit

/-- calculate_order_price(qty) from supabase-schema.sql lines 293-304. -/
def calculate_order_price (qty : Nat) : Nat :=
  if qty ≥ 12 then qty * 700
  else if qty ≥ 6 then qty * 800
  else qty * 1000

/-- Shipping cost assigned at order creation (server.js line 571):
shippingType === 'pickup' ? 0 : PRICING.shipping. -/
def shippingCostFor (shippingType : String) : Nat :=
  if shippingType == "pickup" then 0 else PRICING_shipping

/- ===================== Promo codes (schema + /api/validate-promo) ===================== -/

/-- A row of the promo_codes table (supabase-schema.sql lines 13-29), with the
fields read by server.js. Timestamps are integers; nullable columns are Option. -/
structure PromoCode where
  id : Nat
  code : String
  discount_type : String
  discount_value : Nat
  min_order_amount : Nat
  max_uses : Option Nat
  uses_count : Nat
  max_uses_per_customer : Option Nat
  is_active : Bool
  starts_at : Option Int
  expires_at : Option Int
deriving DecidableEq, Repr

/-- The promo lookup used by both /api/validate-promo and /api/orders:
select * from promo_codes where code = code.toUpperCase() and is_active = true. -/
def findPromo (db : List PromoCode) (code : String) : Option PromoCode :=
  db.find? (fun p => p.code == strUpper code && p.is_active)

/-- Expiry check (server.js line 412): promo.expires_at is truthy and strictly
before now. A null expires_at skips the check. -/
def promoExpired (p : PromoCode) (now : Int) : Bool :=
  match p.expires_at with
  | none => false
  | some t => decide (t < now)

/-- Start-date check (server.js line 417): starts_at truthy and strictly after now. -/
def promoNotStarted (p : PromoCode) (now : Int) : Bool :=
  match p.starts_at with
  | none => false
  | some t => decide (now < t)

/-- Global usage-cap check (server.js line 422): max_uses truthy (null and 0 both
skip the check) and uses_count at or above it. -/
def promoLimitReached (p : PromoCode) : Bool :=
  match p.max_uses with
  | none => false
  | some m => m != 0 && decide (p.uses_count ≥ m)

/-- Minimum-order check (server.js line 427): guarded by truthiness of the
request subtotal, so an absent or zero subtotal skips the check entirely. -/
def promoBelowMinimum (p : PromoCode) (subtotal : Option Nat) : Bool :=
  jsTruthyNat subtotal && decide (subtotal.getD 0 < p.min_order_amount)

/-- Per-customer usage check (server.js lines 434-444): runs only when a
customerId is supplied and max_uses_per_customer is truthy; usage gives the
count of promo_code_usage rows for (promo id, customer). -/
def promoCustomerLimitReached (p : PromoCode) (customerId : Option String)
    (usage : Nat → String → Nat) : Bool :=
  match customerId with
  | none => false
  | some c =>
    match p.max_uses_per_customer with
    | none => false
    | some m => m != 0 && decide (usage p.id c ≥ m)

/-- Discount computation (server.js lines 447-452): percentage type floors
subtotal * value / 100 over (subtotal || 0); fixed type returns the value. -/
def promoDiscount (p : PromoCode) (subtotal : Option Nat) : Nat :=
  if p.discount_type == "percentage" then subtotal.getD 0 * p.discount_value / 100
  else p.discount_value

/-- Outcome of POST /api/validate-promo, one constructor per rejection branch
plus the valid response with its calculatedDiscount. -/
inductive PromoResult where
  | notFound
  | expired
  | notYetActive
  | limitReached
  | belowMinimum
  | customerLimitReached
  | valid (discount : Nat)
deriving DecidableEq, Repr

/-- POST /api/validate-promo (server.js lines 392-468): the checks in source
order, first failing check winning. -/
def validatePromo (db : List PromoCode) (usage : Nat → String → Nat) (now : Int)
    (code : String) (subtotal : Option Nat) (customerId : Option String) : PromoResult :=
  match findPromo db code with
  | none => PromoResult.notFound
  | some promo =>
    if promoExpired promo now then PromoResult.expired
    else if promoNotStarted promo now then PromoResult.notYetActive
    else if promoLimitReached promo then PromoResult.limitReached
    else if promoBelowMinimum promo subtotal then PromoResult.belowMinimum
    else if promoCustomerLimitReached promo customerId usage then PromoResult.customerLimitReached
    else PromoResult.valid (promoDiscount promo subtotal)

/- ===================== Order creation pricing (POST /api/orders) ===================== -/

/-- The discount applied at order creation (server.js lines 572-594): the promo
is looked up by upper-cased code with is_active = true, and if found its
discount is applied with no further checks (no expiry, start-date, usage-cap or
minimum-order re-validation). -/
def orderCreationDiscount (db : List PromoCode) (subtotal : Nat)
    (promoCode : Option String) : Nat :=
  match promoCode with
  | none => 0
  | some c =>
    match findPromo db c with
    | none => 0
    | some promo =>
      if promo.discount_type == "percentage" then subtotal * promo.discount_value / 100
      else promo.discount_value

/-- The monetary fields persisted on a new order. total is an integer because
the source performs plain subtraction with no lower clamp. -/
structure OrderPricing where
  subtotal : Nat
  shippingCost : Nat
  discountAmount : Nat
  total : Int
deriving DecidableEq, Repr

/-- Pricing portion of POST /api/orders (server.js lines 569-596):
subtotal = calculatePrice, shipping by mode, discount from the promo lookup,
total = subtotal + shippingCost - discountAmount. -/
def createOrderPricing (db : List PromoCode) (quantity : Nat)
    (productType shippingType : String) (promoCode : Option String) : OrderPricing :=
  let subtotal := calculatePrice quantity productType
  let shippingCost := shippingCostFor shippingType
  let discountAmount := orderCreationDiscount db subtotal promoCode
  { subtotal := subtotal
    shippingCost := shippingCost
    discountAmount := discountAmount
    total := (subtotal : Int) + (shippingCost : Int) - (discountAmount : Int) }

/- ===================== Stripe webhook (server.js lines 55-132) ===================== -/

/-- The order fields read and written by the checkout.session.completed handler. -/
structure WebhookOrder where
  status : String
  paid_at : Option Int
  stripe_payment_intent_id : Option String
  stripe_checkout_session_id : Option String
  updated_at : Int
  customer_id : Option String
  customer_email : Option String
  total : Nat
deriving DecidableEq, Repr

/-- The running aggregates of the matched customer row, mutated only by
increment_customer_stats (supabase-schema.sql lines 307-317). -/
structure CustomerStats where
  order_count : Nat
  total_spent : Nat
deriving DecidableEq, Repr

/-- Presence of the notification configuration variables read by
sendOrderConfirmationEmail and sendAdminNotification. -/
structure NotifConfig where
  resendKey : Bool
  ntfyTopic : Bool
  adminEmail : Bool
deriving DecidableEq, Repr

/-- The state touched by one webhook delivery: the order row, the matched
customer aggregates, and counters of notifications actually sent. -/
structure WebhookState where
  order : WebhookOrder
  stats : CustomerStats
  customerEmailsSent : Nat
  adminNotifsSent : Nat
deriving DecidableEq, Repr

/-- sendOrderConfirmationEmail (server.js line 243) returns without sending
unless RESEND_API_KEY is set and the order has a customer_email. -/
def confirmationEmailCount (cfg : NotifConfig) (o : WebhookOrder) : Nat :=
  if cfg.resendKey && o.customer_email.isSome then 1 else 0

/-- sendAdminNotification (server.js lines 287-327): one push when NTFY_TOPIC is
set, one email when RESEND_API_KEY and ADMIN_EMAIL are set. -/
def adminNotificationCount (cfg : NotifConfig) : Nat :=
  (if cfg.ntfyTopic then 1 else 0) + (if cfg.resendKey && cfg.adminEmail then 1 else 0)

/-- The checkout.session.completed branch of POST /api/stripe-webhook
(server.js lines 80-123): if the order status is not pending the event is
skipped; otherwise the order becomes paid with paid_at and payment references
stamped, customer stats are incremented when a customer is linked, and the
notifications fire. -/
def processCheckoutCompleted (s : WebhookState) (cfg : NotifConfig) (now : Int)
    (paymentIntent sessionId : String) : WebhookState :=
  if s.order.status != "pending" then s
  else
    let order : WebhookOrder :=
      { s.order with
        status := "paid"
        stripe_payment_intent_id := some paymentIntent
        stripe_checkout_session_id := some sessionId
        paid_at := some now
        updated_at := now }
    let stats :=
      if order.customer_id.isSome then
        { order_count := s.stats.order_count + 1
          total_spent := s.stats.total_spent + order.total }
      else s.stats
    { order := order
      stats := stats
      customerEmailsSent := s.customerEmailsSent + confirmationEmailCount cfg order
      adminNotifsSent := s.adminNotifsSent + adminNotificationCount cfg }

/- ===================== Admin status update (server.js lines 980-1021) ===================== -/

/-- The order fields touched by PUT /api/admin/orders/:id/status. -/
structure OrderRow where
  status : String
  printed_at : Option Int
  shipped_at : Option Int
  completed_at : Option Int
  tracking_number : Option String
  carrier : Option String
  admin_notes : Option String
  updated_at : Int
deriving DecidableEq, Repr

/-- validStatuses from server.js line 985. -/
def validStatuses : List String :=
  ["pending", "paid", "printing", "shipped", "ready_pickup", "completed", "cancelled", "archived"]

/-- PUT /api/admin/orders/:id/status (server.js lines 984-1009): rejects an
unknown status (none); otherwise stamps updated_at and, unconditionally,
printed_at on printing, shipped_at on shipped and ready_pickup, completed_at on
completed; tracking and carrier update when truthy, admin_notes when defined. -/
def updateOrderStatus (o : OrderRow) (status : String) (now : Int)
    (tracking carrier notes : Option String) : Option OrderRow :=
  if !(validStatuses.contains status) then none
  else
    some
      { status := status
        updated_at := now
        printed_at := if status == "printing" then some now else o.printed_at
        shipped_at :=
          if status == "shipped" || status == "ready_pickup" then some now else o.shipped_at
        completed_at := if status == "completed" then some now else o.completed_at
        tracking_number := if jsTruthyStr tracking then tracking else o.tracking_number
        carrier := if jsTruthyStr carrier then carrier else o.carrier
        admin_notes := match notes with | some n => some n | none => o.admin_notes }

/- ===================== Admin authorization (server.js lines 172-212, 1383-1410) ===================== -/

/-- The identity-provider result for a bearer token: a verified user id and email. -/
structure AuthUser where
  id : String
  email : String
deriving DecidableEq, Repr

/-- The object verifyAdmin returns on success. -/
structure Principal where
  userId : String
  email : String
  role : String
deriving DecidableEq, Repr

/-- The roleHierarchy object literal from server.js line 199, as a partial map:
an unknown key yields undefined (none). -/
def roleLevel (role : String) : Option Nat :=
  if role == "owner" then some 4
  else if role == "super_admin" then some 3
  else if role == "admin" then some 2
  else if role == "moderator" then some 1
  else none

/-- verifyAdmin (server.js lines 172-212). ownerEmails holds the already
lower-cased OWNER_EMAILS entries; adminTable is the admins-table lookup from
user id to role; user is the identity-provider result (none when the token is
missing or invalid). requiredLevel falls back to 2 and userLevel to 0 exactly
as the JS or-defaults do. -/
def verifyAdmin (ownerEmails : List String) (adminTable : String → Option String)
    (user : Option AuthUser) (requiredRole : String) : Option Principal :=
  match user with
  | none => none
  | some u =>
    if ownerEmails.contains (strLower u.email) then
      some { userId := u.id, email := u.email, role := "owner" }
    else
      match adminTable u.id with
      | none => none
      | some role =>
        if (roleLevel role).getD 0 ≥ (roleLevel requiredRole).getD 2 then
          some { userId := u.id, email := u.email, role := role }
        else none

/-- The default requiredRole of verifyAdmin (server.js line 172). -/
def defaultRequiredRole : String := "admin"

/-- The owner guard of DELETE /api/admin/admins/:userId (server.js line 1393):
true when the target's email is on the owner allowlist, in which case the
request is rejected with 400 Cannot remove owner. -/
def removeAdminRejected (ownerEmails : List String) (targetEmail : Option String) : Bool :=
  match targetEmail with
  | none => false
  | some e => ownerEmails.contains (strLower e)

/- ===================== Order numbers (supabase-schema.sql lines 273-290) ===================== -/

/-- Fuel-driven decimal digit expansion, so that the definition reduces in the
kernel. The fuel is always at least n+1 at the top call. -/
def decimalDigitsAux : Nat → Nat → List Char
  | 0, _ => []
  | fuel+1, n => if n = 0 then [] else decimalDigitsAux fuel (n / 10) ++ [Nat.digitChar (n % 10)]

/-- Decimal digit characters of n, most significant first (empty for 0). -/
def decimalDigits (n : Nat) : List Char := decimalDigitsAux (n + 1) n

/-- Decimal rendering of a natural number, modelling the SQL cast count::TEXT. -/
def natToText (n : Nat) : String := if n = 0 then "0" else ⟨decimalDigits n⟩

/-- Postgres LPAD(s, len, fill): pads s on the left to len characters, or
truncates s on the right to len characters when s is already longer. -/
def lpad (s : String) (len : Nat) (fill : Char) : String :=
  if len ≤ s.data.length then ⟨s.data.take len⟩
  else ⟨List.replicate (len - s.data.length) fill ++ s.data⟩

/-- generate_order_number (supabase-schema.sql lines 273-290) as a function of
the observed table state: priorCount is the COUNT(*) of existing orders whose
number carries the day prefix, and the returned number uses LPAD(count+1, 3).
Under sequential creation the k-th order of a day observes priorCount = k - 1. -/
def generate_order_number (todayDate : String) (priorCount : Nat) : String :=
  "HS-" ++ todayDate ++ "-" ++ lpad (natToText (priorCount + 1)) 3 '0'

/-- The numbers allocated by N sequential same-day creations: the i-th creation
(0-based) observes i prior orders. -/
def allocatedNumbers (d : String) (N : Nat) : List String :=
  (List.range N).map (fun i => generate_order_number d i)

/-- Decimal value of a digit string, used to decode the sequence component of
an order number. -/
def decimalValue (s : String) : Nat :=
  s.data.foldl (fun a c => a * 10 + (c.toNat - 48)) 0

/- ===================== Pricing theorems (C7, C9) ===================== -/

lemma pricingFor_eq (pt : String) : pricingFor pt = PRICING_personal := by
  unfold pricingFor
  split
  · rfl
  · split <;> rfl

lemma calculatePrice_eq (q : Nat) (pt : String) :
    calculatePrice q pt = if 12 ≤ q then q * 700 else if 6 ≤ q then q * 800 else q * 1000 := by
  unfold calculatePrice
  rw [pricingFor_eq]
  rfl

/-- C7: for every positive quantity q and every product type, the price is
q * 1000 on tier 1 (1..5), q * 800 on tier 2 (6..11) and q * 700 from 12 up,
uniformly per unit; the SQL function calculate_order_price agrees with the JS
calculatePrice; and the quoted concrete values hold. -/
theorem C7_tiered_pricing (q : Nat) (pt : String) :
    (1 ≤ q → q ≤ 5 → calculatePrice q pt = q * 1000) ∧
    (6 ≤ q → q ≤ 11 → calculatePrice q pt = q * 800) ∧
    (12 ≤ q → calculatePrice q pt = q * 700) ∧
    calculate_order_price q = calculatePrice q pt ∧
    calculatePrice 12 pt = 8400 ∧ calculatePrice 11 pt = 8800 ∧
    calculatePrice 6 pt = 4800 ∧ calculatePrice 5 pt = 5000 ∧ calculatePrice 1 pt = 1000 := by
  simp only [calculatePrice_eq, calculate_order_price]
  refine ⟨?_, ?_, ?_, ?_, ?_, ?_, ?_, ?_, ?_⟩ <;> intros <;>
    first
    | trivial
    | (split_ifs <;> omega)

/-- Witness for C7: tier 2 applies at quantity 7 for the personal product type. -/
theorem C7_witness : calculatePrice 7 "personal" = 7 * 800 :=
  (C7_tiered_pricing 7 "personal").2.1 (by decide) (by decide)

/-- C9 counterexample: a created order whose shipping mode is neither delivery
nor pickup (here the string express) is still charged the flat 800 fee, so the
fee is not charged iff the mode is delivery. -/
theorem C9_counterexample :
    shippingCostFor "express" = 800 ∧ ("express" : String) ≠ "delivery" := by
  constructor
  · rfl
  · decide

/-- C9 amended: pickup is always free and every mode other than pickup,
delivery included, is charged the flat PRICING.shipping fee; the fee is waived
iff the mode is exactly pickup. -/
theorem C9_amended_shipping (mode : String) :
    (mode = "pickup" → shippingCostFor mode = 0) ∧
    (mode ≠ "pickup" → shippingCostFor mode = PRICING_shipping) ∧
    (shippingCostFor mode = 0 ↔ mode = "pickup") := by
  unfold shippingCostFor PRICING_shipping
  by_cases h : mode = "pickup" <;> simp [h]

/-- Witness for C9 amended: pickup is free and delivery costs 800. -/
theorem C9_witness : shippingCostFor "pickup" = 0 ∧ shippingCostFor "delivery" = 800 :=
  ⟨(C9_amended_shipping "pickup").1 rfl, (C9_amended_shipping "delivery").2.1 (by decide)⟩

/- ===================== Order-total theorems (C2, C3) ===================== -/

/-- An active fixed-discount promo of 10000 cents, used to exhibit a negative
order total. -/
def c2Promo : PromoCode :=
  { id := 2, code := "BIGFIXED", discount_type := "fixed", discount_value := 10000,
    min_order_amount := 0, max_uses := none, uses_count := 0, max_uses_per_customer := some 1,
    is_active := true, starts_at := none, expires_at := none }

/-- C2: the order-creation code computes total = subtotal + shipping - discount
with no lower clamp, so a fixed discount larger than subtotal + shipping
produces a strictly negative persisted total (here 1000 + 0 - 10000 = -9000),
violating the claimed total at least 0 invariant. -/
theorem C2_total_goes_negative :
    ((createOrderPricing [c2Promo] 1 "personal" "pickup" (some "bigfixed")).total =
      (1000 : Int) + 0 - 10000) ∧
    (createOrderPricing [c2Promo] 1 "personal" "pickup" (some "bigfixed")).total < 0 := by
  constructor <;> decide

/-- An active but expired fixed-discount promo, used to show that order
creation does not re-validate expiry. -/
def c3Promo : PromoCode :=
  { id := 3, code := "OLDCODE", discount_type := "fixed", discount_value := 500,
    min_order_amount := 0, max_uses := none, uses_count := 0, max_uses_per_customer := some 1,
    is_active := true, starts_at := none, expires_at := some 0 }

/-- C3: the preview validator rejects this promo as expired, yet order creation
(which only re-checks existence and the active flag) still applies its full 500
discount to the persisted order, so the promo code is not re-validated fully at
order creation. -/
theorem C3_no_revalidation_at_creation :
    promoExpired c3Promo 1000 = true ∧
    validatePromo [c3Promo] (fun _ _ => 0) 1000 "OLDCODE" (some 4800) none =
      PromoResult.expired ∧
    orderCreationDiscount [c3Promo] 4800 (some "OLDCODE") = 500 ∧
    (createOrderPricing [c3Promo] 6 "personal" "pickup" (some "OLDCODE")).discountAmount = 500 := by
  refine ⟨?_, ?_, ?_, ?_⟩ <;> decide

/- ===================== Promo-validation theorems (C6, C10) ===================== -/

/-- C6: the promo validator checks rejection reasons in a fixed source order
with the first failing check winning; in particular a found, active promo that
is expired is rejected with the expiry reason even when the below-minimum
condition also holds, never with the minimum-order reason. -/
theorem C6_first_failing_check_wins (db : List PromoCode) (usage : Nat → String → Nat)
    (now : Int) (code : String) (subtotal : Option Nat) (customerId : Option String)
    (p : PromoCode) (hfind : findPromo db code = some p)
    (hexp : promoExpired p now = true) (hmin : promoBelowMinimum p subtotal = true) :
    validatePromo db usage now code subtotal customerId = PromoResult.expired ∧
    validatePromo db usage now code subtotal customerId ≠ PromoResult.belowMinimum := by
  unfold validatePromo
  rw [hfind]
  simp [hexp]

/-- An active percentage promo that is both expired and carries a minimum order
amount, for the C6 witness. -/
def c6Promo : PromoCode :=
  { id := 6, code := "SAVE", discount_type := "percentage", discount_value := 10,
    min_order_amount := 5000, max_uses := none, uses_count := 0, max_uses_per_customer := some 1,
    is_active := true, starts_at := none, expires_at := some 100 }

/-- Witness for C6: a code both expired and below minimum is rejected as expired. -/
theorem C6_witness :
    validatePromo [c6Promo] (fun _ _ => 0) 200 "save" (some 1000) none = PromoResult.expired :=
  (C6_first_failing_check_wins [c6Promo] (fun _ _ => 0) 200 "save" (some 1000) none c6Promo
    (by decide) (by decide) (by decide)).1

/-- C10: in the promo-validation endpoint the minimum-order check is guarded by
the truthiness of the request subtotal, so when the subtotal is absent or zero
the check is skipped entirely and a promo with a positive min_order_amount that
passes the other checks validates as valid; a percentage discount is then
computed over subtotal zero, yielding discount zero. -/
theorem C10_min_check_skipped (db : List PromoCode) (usage : Nat → String → Nat)
    (now : Int) (code : String) (subtotal : Option Nat) (customerId : Option String)
    (p : PromoCode) (hfind : findPromo db code = some p)
    (hexp : promoExpired p now = false) (hstart : promoNotStarted p now = false)
    (hlim : promoLimitReached p = false)
    (hcust : promoCustomerLimitReached p customerId usage = false)
    (hsub : jsTruthyNat subtotal = false) (hmin : 0 < p.min_order_amount) :
    validatePromo db usage now code subtotal customerId =
      PromoResult.valid (promoDiscount p subtotal) ∧
    (p.discount_type = "percentage" → promoDiscount p subtotal = 0) := by
  have hbm : promoBelowMinimum p subtotal = false := by
    unfold promoBelowMinimum
    rw [hsub]
    rfl
  constructor
  · unfold validatePromo
    rw [hfind]
    simp [hexp, hstart, hlim, hbm, hcust]
  · intro hp
    have hs : subtotal = none ∨ subtotal = some 0 := by
      cases subtotal with
      | none => exact Or.inl rfl
      | some n =>
        simp [jsTruthyNat] at hsub
        exact Or.inr (by rw [hsub])
    unfold promoDiscount
    rcases hs with h | h <;> simp [h, hp]

/-- A never-expiring percentage promo with a positive minimum order amount, for
the C10 witness. -/
def c10Promo : PromoCode :=
  { id := 10, code := "ZERO", discount_type := "percentage", discount_value := 10,
    min_order_amount := 500, max_uses := none, uses_count := 0, max_uses_per_customer := some 1,
    is_active := true, starts_at := none, expires_at := none }

/-- Witness for C10: with no subtotal supplied the promo with minimum 500 still
validates, with calculated discount zero. -/
theorem C10_witness :
    validatePromo [c10Promo] (fun _ _ => 0) 50 "zero" none none = PromoResult.valid 0 := by
  have h := C10_min_check_skipped [c10Promo] (fun _ _ => 0) 50 "zero" none none c10Promo
    (by decide) (by decide) (by decide) (by decide) (by decide) (by decide) (by decide)
  rw [h.1, h.2 (by decide)]

/- ===================== Webhook idempotency (C1) ===================== -/

/-- C1: payment confirmation is idempotent. If the order is not pending the
event is a full no-op; re-delivering the event against the already-processed
state changes nothing, so paid_at, the customer aggregates and both
notification counters are identical after the second delivery; and a first
delivery against a pending order increments the linked customer aggregates
exactly once and sends exactly one customer confirmation when configured. -/
theorem C1_webhook_idempotent (s : WebhookState) (cfg : NotifConfig) (t1 t2 : Int)
    (p1 s1 p2 s2 : String) :
    (s.order.status ≠ "pending" → processCheckoutCompleted s cfg t1 p1 s1 = s) ∧
    processCheckoutCompleted (processCheckoutCompleted s cfg t1 p1 s1) cfg t2 p2 s2 =
      processCheckoutCompleted s cfg t1 p1 s1 ∧
    (s.order.status = "pending" → s.order.customer_id.isSome = true →
      (processCheckoutCompleted s cfg t1 p1 s1).stats.order_count = s.stats.order_count + 1 ∧
      (processCheckoutCompleted s cfg t1 p1 s1).stats.total_spent =
        s.stats.total_spent + s.order.total) ∧
    (s.order.status = "pending" → (cfg.resendKey && s.order.customer_email.isSome) = true →
      (processCheckoutCompleted (processCheckoutCompleted s cfg t1 p1 s1) cfg t2 p2
          s2).customerEmailsSent = s.customerEmailsSent + 1) := by
  refine ⟨?_, ?_, ?_, ?_⟩
  · intro hne
    simp [processCheckoutCompleted, hne]
  · by_cases h : s.order.status = "pending" <;>
      simp [processCheckoutCompleted, h]
  · intro h hc
    simp [processCheckoutCompleted, h, hc]
  · intro h hc
    simp [processCheckoutCompleted, h, confirmationEmailCount, hc]

/-- Concrete pending order row with a linked customer, for the C1 witness. -/
def c1Order : WebhookOrder :=
  { status := "pending", paid_at := none, stripe_payment_intent_id := none,
    stripe_checkout_session_id := none, updated_at := 0, customer_id := some "cust1",
    customer_email := some "jo@example.com", total := 4800 }

/-- Concrete webhook state around c1Order, for the C1 witness. -/
def c1State : WebhookState :=
  { order := c1Order
    stats := { order_count := 0, total_spent := 0 }
    customerEmailsSent := 0
    adminNotifsSent := 0 }

/-- Notification configuration with only the email API key present, for the C1
witness. -/
def c1Config : NotifConfig := { resendKey := true, ntfyTopic := false, adminEmail := false }

/-- Witness for C1: on a concrete pending order, re-delivery is a no-op, stats
are incremented once and exactly one customer confirmation is counted. -/
theorem C1_witness :
    processCheckoutCompleted (processCheckoutCompleted c1State c1Config 10 "pi1" "cs1")
        c1Config 20 "pi2" "cs2" = processCheckoutCompleted c1State c1Config 10 "pi1" "cs1" ∧
    (processCheckoutCompleted c1State c1Config 10 "pi1" "cs1").stats.order_count =
      c1State.stats.order_count + 1 ∧
    (processCheckoutCompleted (processCheckoutCompleted c1State c1Config 10 "pi1" "cs1")
        c1Config 20 "pi2" "cs2").customerEmailsSent = c1State.customerEmailsSent + 1 :=
  ⟨(C1_webhook_idempotent c1State c1Config 10 20 "pi1" "cs1" "pi2" "cs2").2.1,
   ((C1_webhook_idempotent c1State c1Config 10 20 "pi1" "cs1" "pi2" "cs2").2.2.1
     (by rfl) (by rfl)).1,
   (C1_webhook_idempotent c1State c1Config 10 20 "pi1" "cs1" "pi2" "cs2").2.2.2
     (by rfl) (by rfl)⟩

/- ===================== Milestone timestamps (C4) ===================== -/

/-- An order already in the printing state with printed_at stamped earlier, for
the C4 counterexample. -/
def c4Order : OrderRow :=
  { status := "printing", printed_at := some 5, shipped_at := none, completed_at := none,
    tracking_number := none, carrier := none, admin_notes := none, updated_at := 5 }

/-- C4 counterexample: re-entering the printing state at time 10 on an order
whose printed_at is already 5 overwrites printed_at to 10, so milestone
timestamps are not set at most once. -/
theorem C4_counterexample :
    c4Order.printed_at = some 5 ∧
    (updateOrderStatus c4Order "printing" 10 none none none).map OrderRow.printed_at =
      some (some 10) := by
  constructor <;> decide

/-- C4 amended: every accepted status update that enters printing, shipped,
ready_pickup or completed stamps the matching milestone timestamp with the
current time unconditionally, overwriting any earlier value, while an update to
a non-milestone status such as paid leaves all three timestamps unchanged. -/
theorem C4_amended_timestamps_overwritten (o : OrderRow) (now : Int)
    (t c n : Option String) :
    (updateOrderStatus o "printing" now t c n).map OrderRow.printed_at = some (some now) ∧
    (updateOrderStatus o "shipped" now t c n).map OrderRow.shipped_at = some (some now) ∧
    (updateOrderStatus o "ready_pickup" now t c n).map OrderRow.shipped_at = some (some now) ∧
    (updateOrderStatus o "completed" now t c n).map OrderRow.completed_at = some (some now) ∧
    (updateOrderStatus o "paid" now t c n).map OrderRow.printed_at = some o.printed_at ∧
    (updateOrderStatus o "paid" now t c n).map OrderRow.shipped_at = some o.shipped_at ∧
    (updateOrderStatus o "paid" now t c n).map OrderRow.completed_at = some o.completed_at := by
  simp [updateOrderStatus, validStatuses]

/- ===================== Authorization (C5) ===================== -/

/-- C5: authorization hierarchy. An allowlisted (lower-cased) email is always
granted the owner principal regardless of the role table and is rejected as a
remove-admin target; a non-allowlisted principal with no role row is denied;
a non-allowlisted principal with a role row is granted iff the numeric level of
the stored role (unknown roles mapping to 0) is at least the numeric level of
the required role (unknown or unspecified required roles defaulting to 2); and
the numeric levels are owner 4, super_admin 3, admin 2, moderator 1, with the
default required role admin mapping to level 2. -/
theorem C5_authorization (ownerEmails : List String) (adminTable : String → Option String)
    (u : AuthUser) (requiredRole : String) (role : String) :
    (strLower u.email ∈ ownerEmails →
      verifyAdmin ownerEmails adminTable (some u) requiredRole =
        some { userId := u.id, email := u.email, role := "owner" } ∧
      removeAdminRejected ownerEmails (some u.email) = true) ∧
    (strLower u.email ∉ ownerEmails → adminTable u.id = none →
      verifyAdmin ownerEmails adminTable (some u) requiredRole = none) ∧
    (strLower u.email ∉ ownerEmails → adminTable u.id = some role →
      ((verifyAdmin ownerEmails adminTable (some u) requiredRole).isSome = true ↔
        (roleLevel role).getD 0 ≥ (roleLevel requiredRole).getD 2)) ∧
    roleLevel "owner" = some 4 ∧ roleLevel "super_admin" = some 3 ∧
    roleLevel "admin" = some 2 ∧ roleLevel "moderator" = some 1 ∧
    (roleLevel defaultRequiredRole).getD 2 = 2 := by
  refine ⟨?_, ?_, ?_, rfl, rfl, rfl, rfl, rfl⟩
  · intro h
    refine ⟨?_, ?_⟩
    · unfold verifyAdmin
      simp [h]
    · unfold removeAdminRejected
      simpa using h
  · intro h1 h2
    unfold verifyAdmin
    simp [h1, h2]
  · intro h1 h2
    unfold verifyAdmin
    simp only [h2]
    have hc : ¬ ownerEmails.contains (strLower u.email) = true := by simpa using h1
    rw [if_neg hc]
    by_cases hge : (roleLevel role).getD 0 ≥ (roleLevel requiredRole).getD 2 <;> simp [hge]

/-- Witness for C5: an allowlisted email is granted owner with no role row and
rejected as a remove target; a user absent from both allowlist and role table
is denied; an admin-role principal is denied a super_admin operation. -/
theorem C5_witness :
    verifyAdmin ["boss@example.com"] (fun _ => none) (some ⟨"u1", "Boss@Example.com"⟩)
        "super_admin" =
      some { userId := "u1", email := "Boss@Example.com", role := "owner" } ∧
    removeAdminRejected ["boss@example.com"] (some "Boss@Example.com") = true ∧
    verifyAdmin [] (fun _ => none) (some ⟨"u2", "x@y.z"⟩) "admin" = none ∧
    ((verifyAdmin [] (fun _ => some "admin") (some ⟨"u3", "a@b.c"⟩) "super_admin").isSome = true ↔
      (roleLevel "admin").getD 0 ≥ (roleLevel "super_admin").getD 2) :=
  ⟨((C5_authorization ["boss@example.com"] (fun _ => none) ⟨"u1", "Boss@Example.com"⟩
      "super_admin" "admin").1 (by decide)).1,
   ((C5_authorization ["boss@example.com"] (fun _ => none) ⟨"u1", "Boss@Example.com"⟩
      "super_admin" "admin").1 (by decide)).2,
   (C5_authorization [] (fun _ => none) ⟨"u2", "x@y.z"⟩ "admin" "admin").2.1 (by decide) rfl,
   (C5_authorization [] (fun _ => some "admin") ⟨"u3", "a@b.c"⟩ "super_admin" "admin").2.2.1
     (by decide) rfl⟩

/- ===================== Order-number theorems (C8) ===================== -/

lemma decimalDigitsAux_congr : ∀ n f f', n < f → n < f' →
    decimalDigitsAux f n = decimalDigitsAux f' n := by
  intro n
  induction n using Nat.strong_induction_on with
  | _ n ih =>
    intro f f' hf hf'
    match f, f' with
    | fuel+1, fuel'+1 =>
      by_cases h : n = 0
      · simp [decimalDigitsAux, h]
      · simp only [decimalDigitsAux, h, if_false]
        congr 1
        exact ih (n / 10) (Nat.div_lt_self (Nat.pos_of_ne_zero h) (by omega)) _ _
          (by omega) (by omega)

lemma decimalDigits_succ (n : Nat) (h : n ≠ 0) :
    decimalDigits n = decimalDigits (n / 10) ++ [Nat.digitChar (n % 10)] := by
  have h10 : n / 10 < n := Nat.div_lt_self (Nat.pos_of_ne_zero h) (by omega)
  unfold decimalDigits
  conv_lhs => rw [decimalDigitsAux]
  simp only [h, if_false]
  congr 1
  exact decimalDigitsAux_congr (n / 10) n (n / 10 + 1) h10 (by omega)

lemma digitChar_toNat (d : Nat) (h : d < 10) : (Nat.digitChar d).toNat = 48 + d := by
  interval_cases d <;> decide

lemma foldl_decimalDigits (n : Nat) : ∀ a : Nat,
    List.foldl (fun a c => a * 10 + (c.toNat - 48)) a (decimalDigits n)
      = a * 10 ^ (decimalDigits n).length + n := by
  induction n using Nat.strong_induction_on with
  | _ n ih =>
    intro a
    by_cases h : n = 0
    · subst h
      simp [decimalDigits, decimalDigitsAux]
    · rw [decimalDigits_succ n h, List.foldl_append, List.length_append,
        ih (n / 10) (Nat.div_lt_self (Nat.pos_of_ne_zero h) (by omega)) a]
      simp only [List.foldl_cons, List.foldl_nil, List.length_cons, List.length_nil]
      rw [digitChar_toNat (n % 10) (Nat.mod_lt n (by omega))]
      have h48 : 48 + n % 10 - 48 = n % 10 := by omega
      rw [h48]
      have hdm : n / 10 * 10 + n % 10 = n := by omega
      calc (a * 10 ^ (decimalDigits (n / 10)).length + n / 10) * 10 + n % 10
          = a * (10 ^ (decimalDigits (n / 10)).length * 10) + (n / 10 * 10 + n % 10) := by
            ring
        _ = a * 10 ^ ((decimalDigits (n / 10)).length + (0 + 1)) + n := by
            rw [hdm, pow_succ]

lemma decimalDigits_length_le : ∀ j n : Nat, n < 10 ^ j → (decimalDigits n).length ≤ j := by
  intro j
  induction j with
  | zero =>
    intro n h
    have hn : n = 0 := by simp at h; omega
    subst hn
    simp [decimalDigits, decimalDigitsAux]
  | succ j ih =>
    intro n h
    by_cases h0 : n = 0
    · subst h0
      simp [decimalDigits, decimalDigitsAux]
    · rw [decimalDigits_succ n h0, List.length_append]
      have hps : (10 : Nat) ^ (j + 1) = 10 ^ j * 10 := pow_succ 10 j
      have hlt : n / 10 < 10 ^ j := by omega
      have := ih (n / 10) hlt
      simp only [List.length_cons, List.length_nil]
      omega

lemma foldl_zeros (j : Nat) :
    List.foldl (fun a c => a * 10 + (c.toNat - 48)) 0 (List.replicate j '0') = 0 := by
  induction j with
  | zero => rfl
  | succ j ih =>
    rw [List.replicate_succ, List.foldl_cons]
    have h0 : (0 : Nat) * 10 + ('0'.toNat - 48) = 0 := by decide
    rw [h0]
    exact ih

lemma lpad_eq_of_le (s : String) (len : Nat) (fill : Char) (h : s.data.length ≤ len) :
    lpad s len fill = ⟨List.replicate (len - s.data.length) fill ++ s.data⟩ := by
  unfold lpad
  by_cases hge : len ≤ s.data.length
  · have heq : s.data.length = len := le_antisymm h hge
    rw [if_pos hge, List.take_of_length_le (le_of_eq heq), heq]
    simp
  · rw [if_neg hge]

lemma decimalValue_lpad (k : Nat) (hk1 : 1 ≤ k) (hk2 : k ≤ 999) :
    (lpad (natToText k) 3 '0').data.length = 3 ∧
    decimalValue (lpad (natToText k) 3 '0') = k := by
  have hk : k ≠ 0 := by omega
  have hpow : (10 : Nat) ^ 3 = 1000 := by norm_num
  have hlen : (decimalDigits k).length ≤ 3 := decimalDigits_length_le 3 k (by omega)
  have hdata : (natToText k).data = decimalDigits k := by
    unfold natToText
    rw [if_neg hk]
  have hform : lpad (natToText k) 3 '0' =
      ⟨List.replicate (3 - (decimalDigits k).length) '0' ++ decimalDigits k⟩ := by
    have h := lpad_eq_of_le (natToText k) 3 '0' (by rw [hdata]; exact hlen)
    rw [hdata] at h
    exact h
  constructor
  · rw [hform]
    show (List.replicate (3 - (decimalDigits k).length) '0' ++ decimalDigits k).length = 3
    rw [List.length_append, List.length_replicate]
    omega
  · rw [hform]
    show List.foldl (fun a c => a * 10 + (c.toNat - 48)) 0
      (List.replicate (3 - (decimalDigits k).length) '0' ++ decimalDigits k) = k
    rw [List.foldl_append, foldl_zeros, foldl_decimalDigits k 0]
    simp

lemma string_data_append (s t : String) : (s ++ t).data = s.data ++ t.data := rfl

/-- C8 counterexample: the order-number generator sends both a prior count of
99 (the 100th order of the day) and a prior count of 1000 (the 1001st order,
whose sequence 1001 is right-truncated by LPAD to three characters) to the same
number HS-20240301-100, so same-day order numbers are neither collision-free
for every N nor always carry the full zero-padded sequence. -/
theorem C8_counterexample :
    generate_order_number "20240301" 99 = generate_order_number "20240301" 1000 ∧
    generate_order_number "20240301" 99 = "HS-20240301-100" ∧
    (99 : Nat) ≠ 1000 := by
  refine ⟨by decide, by decide, by decide⟩

/-- C8 amended: restricted to at most 999 orders on a calendar day, sequential
allocation is collision-free and densely sequenced: the k-th order of the day
(which observes k - 1 prior orders) gets the fixed HS- prefix, the date, and a
three-character zero-padded sequence that decodes back to exactly k, and two
distinct positions k and j in 1..999 always receive distinct numbers. -/
theorem C8_amended_daily_numbers (d : String) (k j : Nat) (hk1 : 1 ≤ k) (hk2 : k ≤ 999)
    (hj1 : 1 ≤ j) (hj2 : j ≤ 999) :
    generate_order_number d (k - 1) = "HS-" ++ d ++ "-" ++ lpad (natToText k) 3 '0' ∧
    (lpad (natToText k) 3 '0').data.length = 3 ∧
    decimalValue (lpad (natToText k) 3 '0') = k ∧
    (generate_order_number d (k - 1) = generate_order_number d (j - 1) → k = j) := by
  have hks : k - 1 + 1 = k := by omega
  have hjs : j - 1 + 1 = j := by omega
  refine ⟨by unfold generate_order_number; rw [hks], (decimalValue_lpad k hk1 hk2).1,
    (decimalValue_lpad k hk1 hk2).2, ?_⟩
  intro heq
  unfold generate_order_number at heq
  rw [hks, hjs] at heq
  have hdata := congrArg String.data heq
  simp only [string_data_append, List.append_assoc] at hdata
  have hx : (lpad (natToText k) 3 '0').data = (lpad (natToText j) 3 '0').data :=
    List.append_cancel_left (List.append_cancel_left (List.append_cancel_left hdata))
  have hk' := (decimalValue_lpad k hk1 hk2).2
  have hj' := (decimalValue_lpad j hj1 hj2).2
  unfold decimalValue at hk' hj'
  rw [hx] at hk'
  omega

/-- Witness for C8 amended: the third order of 2024-03-01 is numbered with the
zero-padded sequence 003, which decodes back to 3. -/
theorem C8_witness :
    generate_order_number "20240301" (3 - 1) =
      "HS-" ++ "20240301" ++ "-" ++ lpad (natToText 3) 3 '0' ∧
    decimalValue (lpad (natToText 3) 3 '0') = 3 :=
  ⟨(C8_amended_daily_numbers "20240301" 3 3 (by decide) (by decide) (by decide) (by decide)).1,
   (C8_amended_daily_numbers "20240301" 3 3 (by decide) (by decide) (by decide)
     (by decide)).2.2.1⟩
